import Mathlib

set_option maxRecDepth 100000

namespace Uclbrt

/-! Bit-level helpers on `Nat`, working modulo 2^32. -/

def M32 : Nat := 4294967296

def add32 (a b : Nat) : Nat := (a + b) % M32

def not32 (x : Nat) : Nat := Nat.xor x 4294967295

def rotl32 (x n : Nat) : Nat :=
  ((x <<< n) + (x >>> (32 - n))) % M32

/-! Character tables. -/

def digitChar (n : Nat) : Char := "0123456789".data.getD (n % 10) '0'

def hexCharLower (n : Nat) : Char := "0123456789abcdef".data.getD (n % 16) '0'

def hexCharUpper (n : Nat) : Char := "0123456789ABCDEF".data.getD (n % 16) '0'

def b64Char (n : Nat) : Char :=
  "ABCDEFGHIJKLMNOPQRSTUVWXYZabcdefghijklmnopqrstuvwxyz0123456789+/".data.getD (n % 64) 'A'

/-- UTF-8 encoding of one character, as a list of byte values. -/
def charUtf8 (c : Char) : List Nat :=
  let n := c.toNat
  if n < 128 then [n]
  else if n < 2048 then [192 + n / 64, 128 + n % 64]
  else if n < 65536 then [224 + n / 4096, 128 + n / 64 % 64, 128 + n % 64]
  else [240 + n / 262144, 128 + n / 4096 % 64, 128 + n / 64 % 64, 128 + n % 64]

/-- UTF-8 bytes of a string (the encoding `crypto.createHash(...).update(string)` uses). -/
def strUtf8 (s : String) : List Nat := s.data.foldr (fun c acc => charUtf8 c ++ acc) []

/-- Lowercase hex rendering of a byte list. -/
def hexLower (bytes : List Nat) : String :=
  String.mk (bytes.foldr (fun b acc => hexCharLower (b / 16) :: hexCharLower b :: acc) [])

/-! MD5 (RFC 1321), over byte lists, little-endian words. -/

def u64LE (n : Nat) : List Nat :=
  [n % 256, n / 256 % 256, n / 65536 % 256, n / 16777216 % 256,
   n / 4294967296 % 256, n / 1099511627776 % 256,
   n / 281474976710656 % 256, n / 72057594037927936 % 256]

def u64BE (n : Nat) : List Nat := (u64LE n).reverse

/-- Merkle–Damgard padding: append 0x80, zeros to 56 mod 64, then the 64-bit bit length. -/
def mdPad (tail : List Nat) (msg : List Nat) : List Nat :=
  msg ++ 128 :: List.replicate ((119 - msg.length % 64) % 64) 0 ++ tail

def bytesToWordsLE : List Nat → List Nat
  | b0 :: b1 :: b2 :: b3 :: rest =>
      (b0 + b1 * 256 + b2 * 65536 + b3 * 16777216) :: bytesToWordsLE rest
  | _ => []

def bytesToWordsBE : List Nat → List Nat
  | b0 :: b1 :: b2 :: b3 :: rest =>
      (((b0 * 256 + b1) * 256 + b2) * 256 + b3) :: bytesToWordsBE rest
  | _ => []

def chunks64Aux : Nat → List Nat → List (List Nat)
  | _, [] => []
  | 0, l => [l]
  | fuel + 1, l => l.take 64 :: chunks64Aux fuel (l.drop 64)

/-- Splits a byte list into 64-byte blocks (structural recursion so the kernel can evaluate it). -/
def chunks64 (l : List Nat) : List (List Nat) := chunks64Aux l.length l

def md5K : List Nat :=
  [0xd76aa478, 0xe8c7b756, 0x242070db, 0xc1bdceee,
   0xf57c0faf, 0x4787c62a, 0xa8304613, 0xfd469501,
   0x698098d8, 0x8b44f7af, 0xffff5bb1, 0x895cd7be,
   0x6b901122, 0xfd987193, 0xa679438e, 0x49b40821,
   0xf61e2562, 0xc040b340, 0x265e5a51, 0xe9b6c7aa,
   0xd62f105d, 0x02441453, 0xd8a1e681, 0xe7d3fbc8,
   0x21e1cde6, 0xc33707d6, 0xf4d50d87, 0x455a14ed,
   0xa9e3e905, 0xfcefa3f8, 0x676f02d9, 0x8d2a4c8a,
   0xfffa3942, 0x8771f681, 0x6d9d6122, 0xfde5380c,
   0xa4beea44, 0x4bdecfa9, 0xf6bb4b60, 0xbebfbc70,
   0x289b7ec6, 0xeaa127fa, 0xd4ef3085, 0x04881d05,
   0xd9d4d039, 0xe6db99e5, 0x1fa27cf8, 0xc4ac5665,
   0xf4292244, 0x432aff97, 0xab9423a7, 0xfc93a039,
   0x655b59c3, 0x8f0ccc92, 0xffeff47d, 0x85845dd1,
   0x6fa87e4f, 0xfe2ce6e0, 0xa3014314, 0x4e0811a1,
   0xf7537e82, 0xbd3af235, 0x2ad7d2bb, 0xeb86d391]

def md5S : List Nat :=
  [7, 12, 17, 22, 7, 12, 17, 22, 7, 12, 17, 22, 7, 12, 17, 22,
   5, 9, 14, 20, 5, 9, 14, 20, 5, 9, 14, 20, 5, 9, 14, 20,
   4, 11, 16, 23, 4, 11, 16, 23, 4, 11, 16, 23, 4, 11, 16, 23,
   6, 10, 15, 21, 6, 10, 15, 21, 6, 10, 15, 21, 6, 10, 15, 21]

def md5Step (m : List Nat) (st : Nat × Nat × Nat × Nat) (i : Nat) : Nat × Nat × Nat × Nat :=
  let (a, b, c, d) := st
  let f :=
    if i < 16 then Nat.lor (Nat.land b c) (Nat.land (not32 b) d)
    else if i < 32 then Nat.lor (Nat.land d b) (Nat.land (not32 d) c)
    else if i < 48 then Nat.xor b (Nat.xor c d)
    else Nat.xor c (Nat.lor b (not32 d))
  let g :=
    if i < 16 then i
    else if i < 32 then (5 * i + 1) % 16
    else if i < 48 then (3 * i + 5) % 16
    else (7 * i) % 16
  let tmp := (a + f + md5K.getD i 0 + m.getD g 0) % M32
  (d, add32 b (rotl32 tmp (md5S.getD i 0)), b, c)

def md5Block (st : Nat × Nat × Nat × Nat) (block : List Nat) : Nat × Nat × Nat × Nat :=
  let m := bytesToWordsLE block
  let (a, b, c, d) := (List.range 64).foldl (md5Step m) st
  let (a0, b0, c0, d0) := st
  (add32 a0 a, add32 b0 b, add32 c0 c, add32 d0 d)

def wordLE (w : Nat) : List Nat := [w % 256, w / 256 % 256, w / 65536 % 256, w / 16777216 % 256]

def wordBE (w : Nat) : List Nat := [w / 16777216 % 256, w / 65536 % 256, w / 256 % 256, w % 256]

/-- MD5 digest of a byte list, as the 16-byte digest list. -/
def md5 (msg : List Nat) : List Nat :=
  let padded := mdPad (u64LE (msg.length * 8)) msg
  let (a, b, c, d) := (chunks64 padded).foldl md5Block
    (0x67452301, 0xefcdab89, 0x98badcfe, 0x10325476)
  wordLE a ++ wordLE b ++ wordLE c ++ wordLE d

/-- Lowercase hex MD5 digest of a string, models `createHash('md5').update(s).digest('hex')`. -/
def md5HexStr (s : String) : String := hexLower (md5 (strUtf8 s))

/-! SHA-1 (RFC 3174), big-endian words. -/

def sha1Ws (initial : List Nat) : List Nat :=
  (List.range 80).foldl
    (fun acc i =>
      if i < 16 then acc ++ [initial.getD i 0]
      else acc ++ [rotl32 (Nat.xor (acc.getD (i - 3) 0) (Nat.xor (acc.getD (i - 8) 0)
        (Nat.xor (acc.getD (i - 14) 0) (acc.getD (i - 16) 0)))) 1])
    []

def sha1Step (w : List Nat) (st : Nat × Nat × Nat × Nat × Nat) (i : Nat) :
    Nat × Nat × Nat × Nat × Nat :=
  let (a, b, c, d, e) := st
  let f :=
    if i < 20 then Nat.lor (Nat.land b c) (Nat.land (not32 b) d)
    else if i < 40 then Nat.xor b (Nat.xor c d)
    else if i < 60 then Nat.lor (Nat.lor (Nat.land b c) (Nat.land b d)) (Nat.land c d)
    else Nat.xor b (Nat.xor c d)
  let k :=
    if i < 20 then 0x5a827999
    else if i < 40 then 0x6ed9eba1
    else if i < 60 then 0x8f1bbcdc
    else 0xca62c1d6
  let tmp := (rotl32 a 5 + f + e + k + w.getD i 0) % M32
  (tmp, a, rotl32 b 30, c, d)

def sha1Block (st : Nat × Nat × Nat × Nat × Nat) (block : List Nat) :
    Nat × Nat × Nat × Nat × Nat :=
  let w := sha1Ws (bytesToWordsBE block)
  let (a, b, c, d, e) := (List.range 80).foldl (sha1Step w) st
  let (a0, b0, c0, d0, e0) := st
  (add32 a0 a, add32 b0 b, add32 c0 c, add32 d0 d, add32 e0 e)

/-- SHA-1 digest of a byte list, as the 20-byte digest list. -/
def sha1 (msg : List Nat) : List Nat :=
  let padded := mdPad (u64BE (msg.length * 8)) msg
  let (a, b, c, d, e) := (chunks64 padded).foldl sha1Block
    (0x67452301, 0xefcdab89, 0x98badcfe, 0x10325476, 0xc3d2e1f0)
  wordBE a ++ wordBE b ++ wordBE c ++ wordBE d ++ wordBE e

/-- Lowercase hex SHA-1 digest of a string. -/
def sha1HexStr (s : String) : String := hexLower (sha1 (strUtf8 s))

/-! Base64 (RFC 4648) of a byte list, models `Buffer.toString('base64')`. -/

def base64Core : List Nat → List Char
  | b0 :: b1 :: b2 :: rest =>
      b64Char (b0 / 4) :: b64Char (b0 % 4 * 16 + b1 / 16) ::
      b64Char (b1 % 16 * 4 + b2 / 64) :: b64Char (b2 % 64) :: base64Core rest
  | [b0, b1] => [b64Char (b0 / 4), b64Char (b0 % 4 * 16 + b1 / 16), b64Char (b1 % 16 * 4), '=']
  | [b0] => [b64Char (b0 / 4), b64Char (b0 % 4 * 16), '=', '=']
  | [] => []


def base64Encode (bytes : List Nat) : String := String.mk (base64Core bytes)

/-! JavaScript string and object helpers.

An object literal with identifier (non-numeric) keys is modelled as an
insertion-ordered association list `List (String × String)`; number values are
stringified eagerly with `Nat.repr`, which agrees with JavaScript number
rendering for the natural-number flags this SDK uses. -/

/-- Models `Array.prototype.join('')` over string values. -/
def strJoin (l : List String) : String := l.foldl (fun a b => a ++ b) ""

/-- Models `Array.prototype.join(sep)`. -/
def strJoinSep (sep : String) : List String → String
  | [] => ""
  | [x] => x
  | x :: y :: rest => x ++ sep ++ strJoinSep sep (y :: rest)

/-- Models property read `data[key]` on an object. -/
def jsGet : List (String × String) → String → Option String
  | [], _ => none
  | (k, v) :: rest, key => bif k == key then some v else jsGet rest key

/-- Models property write `data[key] = v`: updates in place if the key exists,
otherwise appends in insertion order. -/
def jsSet : List (String × String) → String → String → List (String × String)
  | [], key, v => [(key, v)]
  | (k, w) :: rest, key, v => bif k == key then (key, v) :: rest else (k, w) :: jsSet rest key v

/-- Code-unit lexicographic order on strings (JavaScript default sort order
for the ASCII keys used here). -/
def strLtB : List Char → List Char → Bool
  | [], [] => false
  | [], _ :: _ => true
  | _ :: _, [] => false
  | a :: as, b :: bs =>
      if a.toNat < b.toNat then true else if b.toNat < a.toNat then false else strLtB as bs

/-- One step of insertion sort in JavaScript default string order. -/
def insertSorted (x : String) : List String → List String
  | [] => [x]
  | y :: rest =>
      bif strLtB x.data y.data || x == y then x :: y :: rest else y :: insertSorted x rest

/-- Models `Object.keys(data); keys.sort()` (byte-wise ascending). -/
def sortStrings (l : List String) : List String := l.foldr insertSorted []

/-! The repository source, `src/uclbrt.ts`.  Pure parts of the `Uclbrt` class
are translated one method per definition; external collaborators (the system
clock, the timezone database, RSA encryption, the HTTP transport) enter as
explicit parameters. -/

/-- Error taxonomy.  `configError` is a thrown `Error` with the given message
(the spec's ConfigurationError), `formatError` the thrown time format error,
`typeError` a JavaScript TypeError from reading a property of `undefined`,
`rangeError` the RangeError thrown by `toISOString` on an Invalid Date,
and the last three are the response-validation failures of the spec. -/
inductive Err where
  | configError : String → Err
  | formatError : String → Err
  | typeError : Err
  | rangeError : Err
  | transportError : Nat → Err
  | serverError : Option String → Err
  | unexpectedResponse : String → Err
deriving DecidableEq

/-- Decidable equality of `Except` results, for concrete evaluation of claims. -/
instance {ε α : Type} [DecidableEq ε] [DecidableEq α] : DecidableEq (Except ε α)
  | .ok a, .ok b =>
      if h : a = b then .isTrue (by rw [h]) else .isFalse (fun hh => by cases hh; exact h rfl)
  | .error a, .error b =>
      if h : a = b then .isTrue (by rw [h]) else .isFalse (fun hh => by cases hh; exact h rfl)
  | .ok _, .error _ => .isFalse (fun hh => by cases hh)
  | .error _, .ok _ => .isFalse (fun hh => by cases hh)

/-- Client state after construction (`accountSid`/`authToken` validated
non-empty by the constructor).  `communityNo` is `none` until
`setCommunityNo` is called, modelling the uninitialised TypeScript field. -/
structure Client where
  accountSid : String
  authToken : String
  apiHost : String
  cardHost : String
  communityTimezone : String
  localTimezone : String
  communityNo : Option Nat
deriving DecidableEq

/-- The request description an operation hands to the transport:
url (query-string signature included), Authorization header value
("" when absent), body mapping and content type. -/
structure SignedRequest where
  url : String
  auth : String
  body : List (String × String)
  contentType : String
deriving DecidableEq

/-- JavaScript truthiness of the numeric field `communityNo`
(`undefined` and `0` are falsy). -/
def jsFalsyNum : Option Nat → Bool
  | none => true
  | some n => n == 0

/-- Source `checkCommunityNo` (uclbrt.ts:131). -/
def checkCommunityNo (st : Client) : Except Err Unit :=
  if jsFalsyNum st.communityNo then .error (.configError "communityNo cannot be empty.")
  else .ok ()

/-- Source expression `this.communityNo.toString()`: reading `toString` of an
`undefined` field is a TypeError. -/
def communityNoStr (st : Client) : Except Err String :=
  match st.communityNo with
  | none => .error .typeError
  | some n => .ok (Nat.repr n)

/-- Source `objectToQuery` (uclbrt.ts:61): keys sorted ascending,
`key=value` pairs joined with `&`, no escaping. -/
def objectToQuery (data : List (String × String)) : String :=
  strJoinSep "&" ((sortStrings (data.map Prod.fst)).map
    (fun k => k ++ "=" ++ (jsGet data k).getD ""))

/-- Models `String.prototype.toUpperCase` on ASCII strings
(character-wise uppercase; kernel-computable). -/
def strUpper (s : String) : String := String.mk (s.data.map Char.toUpper)

/-- Source `getSig` (uclbrt.ts:79): uppercase hex MD5 of accountSid+authToken+batch. -/
def getSig (st : Client) (batch : String) : String :=
  strUpper (md5HexStr (st.accountSid ++ st.authToken ++ batch))

/-- Source `getSig2` (uclbrt.ts:85): lowercase hex MD5 of the object's values
joined in insertion order followed by authToken. -/
def getSig2 (st : Client) (data : List (String × String)) : String :=
  md5HexStr (strJoin (data.map Prod.snd) ++ st.authToken)

/-- Source `getSig3` (uclbrt.ts:92): first mutates its argument, adding the
`authToken` field, then hashes the canonical query with SHA-1.  Returned as
(signature, mutated object) to make the mutation explicit. -/
def getSig3 (st : Client) (data : List (String × String)) : String × List (String × String) :=
  let data2 := jsSet data "authToken" st.authToken
  (sha1HexStr (objectToQuery data2), data2)

/-- Source `getAuth` (uclbrt.ts:100): Base64 of `accountSid:batch`. -/
def getAuth (st : Client) (batch : String) : String :=
  base64Encode (strUtf8 (st.accountSid ++ ":" ++ batch))

/-- Character kept by `encodeURIComponent` (the RFC 2396 unreserved set). -/
def isUnreservedURI (c : Char) : Bool :=
  c.isAlpha || c.isDigit || c == '-' || c == '_' || c == '.' || c == '!' ||
  c == '~' || c == '*' || c == Char.ofNat 39 || c == '(' || c == ')'

/-- One escaped byte of `encodeURIComponent` output. -/
def peByte (b : Nat) (acc : List Char) : List Char :=
  '%' :: hexCharUpper (b / 16) :: hexCharUpper b :: acc

/-- One character of `encodeURIComponent` output: unreserved characters pass
through, all others become %XX escapes of their UTF-8 bytes (uppercase hex). -/
def peStep (c : Char) (acc : List Char) : List Char :=
  if isUnreservedURI c then c :: acc else (charUtf8 c).foldr peByte acc

/-- Models `encodeURIComponent`. -/
def percentEncode (s : String) : String := String.mk (s.data.foldr peStep [])

/-! Calendar arithmetic, modelling the JavaScript `Date` object in a
fixed-offset timezone model: a timezone name is interpreted through an
explicit parameter `off : String → Int` giving its UTC offset in minutes.
Instants are minutes since the Unix epoch; the civil-calendar conversions are
the standard proleptic-Gregorian algorithms, as used by ECMAScript dates. -/

structure DateTime where
  year : Int
  month : Nat
  day : Nat
  hour : Nat
  minute : Nat
  second : Nat
deriving DecidableEq

def isLeap (y : Int) : Bool := (y % 4 == 0 && y % 100 != 0) || y % 400 == 0

def daysInMonth (y : Int) (m : Nat) : Nat :=
  if m == 2 then (if isLeap y then 29 else 28)
  else if m == 4 || m == 6 || m == 9 || m == 11 then 30
  else 31

/-- Days since 1970-01-01 of a civil date (proleptic Gregorian). -/
def daysFromCivil (y : Int) (m d : Nat) : Int :=
  let y2 : Int := if m ≤ 2 then y - 1 else y
  let era : Int := y2.fdiv 400
  let yoe : Nat := (y2 - era * 400).toNat
  let mp : Nat := if m ≥ 3 then m - 3 else m + 9
  let doy : Nat := (153 * mp + 2) / 5 + d - 1
  let doe : Nat := yoe * 365 + yoe / 4 - yoe / 100 + doy
  era * 146097 + (doe : Int) - 719468

/-- Civil date of a count of days since 1970-01-01. -/
def civilFromDays (z0 : Int) : Int × Nat × Nat :=
  let z : Int := z0 + 719468
  let era : Int := z.fdiv 146097
  let doe : Nat := (z - era * 146097).toNat
  let yoe : Nat := (doe - doe / 1460 + doe / 36524 - doe / 146096) / 365
  let doy : Nat := doe - (365 * yoe + yoe / 4 - yoe / 100)
  let mp : Nat := (5 * doy + 2) / 153
  let d : Nat := doy - (153 * mp + 2) / 5 + 1
  let m : Nat := if mp < 10 then mp + 3 else mp - 9
  (((yoe : Int) + era * 400) + (if mp < 10 then 0 else 1), m, d)

/-- Minutes since the epoch of a calendar time read as UTC. -/
def dtToMinutes (dt : DateTime) : Int :=
  daysFromCivil dt.year dt.month dt.day * 1440 + dt.hour * 60 + dt.minute

/-- Calendar time (seconds zero) of a count of minutes since the epoch, read as UTC. -/
def minutesToDt (m : Int) : DateTime :=
  let days := m.fdiv 1440
  let rem := (m - days * 1440).toNat
  let c := civilFromDays days
  ⟨c.1, c.2.1, c.2.2, rem / 60, rem % 60, 0⟩

/-- Decimal digit characters of `toISOString`-style zero-padded fields. -/
def dc2 (n : Nat) : List Char := [digitChar (n / 10), digitChar n]

def dcI4 (y : Int) : List Char :=
  [digitChar ((y.ediv 1000).emod 10).toNat, digitChar ((y.ediv 100).emod 10).toNat,
   digitChar ((y.ediv 10).emod 10).toNat, digitChar (y.emod 10).toNat]

def dcI2 (y : Int) : List Char :=
  [digitChar ((y.ediv 10).emod 10).toNat, digitChar (y.emod 10).toNat]

/-- Models `Date.prototype.toISOString` on a valid date (milliseconds zero):
`YYYY-MM-DDTHH:mm:ss.000Z` as a character list. -/
def isoChars (dt : DateTime) : List Char :=
  dcI4 dt.year ++ '-' :: dc2 dt.month ++ '-' :: dc2 dt.day ++ 'T' :: dc2 dt.hour ++
  ':' :: dc2 dt.minute ++ ':' :: dc2 dt.second ++ '.' :: '0' :: '0' :: '0' :: ['Z']

/-- Character dropped by the source regex `-|:|T` (global). -/
def keepDCT (c : Char) : Bool := !(c == '-' || c == ':' || c == 'T')

/-- Models `str.replace-all of dash, colon, T`. -/
def removeDCT (l : List Char) : List Char := l.filter keepDCT

/-- Source batch id: `new Date().toISOString().replace-all of dash, colon, T.slice(0, 14)`. -/
def jsBatch (now : DateTime) : String := String.mk (List.take 14 (removeDCT (isoChars now)))

/-- Source compact-time rendering in `toCommunityTime`:
`dt2.toISOString().replace-all of dash, colon, T.slice(2, 12)`. -/
def jsRender10 (dt : DateTime) : String :=
  String.mk (List.take 10 (List.drop 2 (removeDCT (isoChars dt))))

/-- The 14-digit compact UTC timestamp `YYYYMMDDHHmmss` named by the spec. -/
def render14Spec (dt : DateTime) : String :=
  String.mk (dcI4 dt.year ++ dc2 dt.month ++ dc2 dt.day ++ dc2 dt.hour ++
    dc2 dt.minute ++ dc2 dt.second)

/-- The compact `YYMMDDHHmm` rendering named by the spec (two-digit year). -/
def render10Spec (dt : DateTime) : String :=
  String.mk (dcI2 dt.year ++ dc2 dt.month ++ dc2 dt.day ++ dc2 dt.hour ++ dc2 dt.minute)

/-- Models the global match `timeStr.match(/.{2}/g)`: successive two-character
groups; `.` does not match a newline, and on a failed position the scan
advances one character. -/
def chunk2 : List Char → List (Char × Char)
  | a :: b :: rest =>
      bif a != '\n' && b != '\n' then (a, b) :: chunk2 rest else chunk2 (b :: rest)
  | _ => []

/-- Numeric value of a two-digit group, `none` if either character is not a digit. -/
def pairVal (p : Char × Char) : Option Nat :=
  if p.1.isDigit && p.2.isDigit then some ((p.1.toNat - 48) * 10 + (p.2.toNat - 48)) else none

/-- Models `new Date('20YY-MM-DD HH:mm:00')` parsed in the operator's local
timezone: `some` calendar fields when the components are in range, `none` for
an Invalid Date. -/
def jsParseLocalDateTime (t : List (Char × Char)) : Option DateTime :=
  match t with
  | [p0, p1, p2, p3, p4] => do
      let yy ← pairVal p0
      let mo ← pairVal p1
      let d ← pairVal p2
      let h ← pairVal p3
      let mi ← pairVal p4
      if 1 ≤ mo ∧ mo ≤ 12 ∧ 1 ≤ d ∧ d ≤ daysInMonth (2000 + yy) mo ∧ h ≤ 23 ∧ mi ≤ 59 then
        some ⟨2000 + (yy : Int), mo, d, h, mi, 0⟩
      else none
  | _ => none

/-- Models the composite `new Date(dt.toLocaleString('en-US', {timeZone}))` in
the fixed-offset model: rendering instant `i` in the named zone and re-parsing
the rendered calendar time as operator-local yields the instant
`i + offTz - offLocal`. -/
def jsShiftTz (i offTz offLocal : Int) : Int := i + offTz - offLocal

/-- Source `toCommunityTime` (uclbrt.ts:115).  `off` is the timezone-offset
table (minutes east of UTC); `ctz`/`ltz` are the community and operator-local
timezone names. -/
def toCommunityTime (off : String → Int) (ctz ltz : String) (timeStr : String) :
    Except Err String :=
  if timeStr = "" then .ok ""
  else if ctz = ltz then .ok timeStr
  else
    let t := chunk2 timeStr.data
    if t.length ≠ 5 then .error (.formatError "time format error.")
    else
      match jsParseLocalDateTime t with
      | none => .error .rangeError
      | some dt =>
        let i := dtToMinutes dt - off ltz
        let j := jsShiftTz i (off ctz) (off ltz)
        .ok (jsRender10 (minutesToDt j))

/-! Operation builders.  Each definition translates one public method of the
class: precondition checks, time normalisation, field mapping in source
insertion order, signature, and the request description handed to the
transport.  The system clock enters as `now : DateTime` (UTC fields of
`new Date()`), `nowSec : Nat` (`Date.now()/1000`) or `rand : Nat`
(`Math.random()` scaled), and the timezone table as `off`. -/

/-- Source `create` (uclbrt.ts:219). -/
def create (st : Client) (off : String → Int) (now : DateTime)
    (mobile areaCode roomNo floorNo buildNo startTime endTime : String)
    (sendSms cardType times opentype : Nat) : Except Err SignedRequest := do
  let _ ← checkCommunityNo st
  let batch := jsBatch now
  let sig := getSig st batch
  let url := st.apiHost ++ "?c=Qrcode&a=getLink&sig=" ++ sig
  let auth := getAuth st batch
  let cn ← communityNoStr st
  let st1 ← toCommunityTime off st.communityTimezone st.localTimezone startTime
  let et1 ← toCommunityTime off st.communityTimezone st.localTimezone endTime
  Except.ok ⟨url, auth,
    [("mobile", mobile), ("areaCode", areaCode), ("roomNo", roomNo), ("floorNo", floorNo),
     ("buildNo", buildNo), ("communityNo", cn), ("startTime", st1), ("endTime", et1),
     ("sendSms", Nat.repr sendSms), ("cardType", Nat.repr cardType),
     ("times", Nat.repr times), ("opentype", Nat.repr opentype)],
    "application/json"⟩

/-- Source `createRoomKey` (uclbrt.ts:260): `create` with `cardType = 0`. -/
def createRoomKey (st : Client) (off : String → Int) (now : DateTime)
    (mobile areaCode roomNo floorNo buildNo startTime endTime : String)
    (sendSms times : Nat) : Except Err SignedRequest :=
  create st off now mobile areaCode roomNo floorNo buildNo startTime endTime sendSms 0 times 0

/-- Source `createFloorKey` (uclbrt.ts:275): `create` with `cardType = 1`. -/
def createFloorKey (st : Client) (off : String → Int) (now : DateTime)
    (mobile areaCode floorNo buildNo startTime endTime : String)
    (sendSms : Nat) : Except Err SignedRequest :=
  create st off now mobile areaCode "" floorNo buildNo startTime endTime sendSms 1 0 0

/-- Source `createBuildingKey` (uclbrt.ts:288): `create` with `cardType = 2`. -/
def createBuildingKey (st : Client) (off : String → Int) (now : DateTime)
    (mobile areaCode buildNo startTime endTime : String)
    (sendSms : Nat) : Except Err SignedRequest :=
  create st off now mobile areaCode "" "" buildNo startTime endTime sendSms 2 0 0

/-- Source `createRoomLostKey` (uclbrt.ts:300). -/
def createRoomLostKey (st : Client) (off : String → Int) (now : DateTime)
    (mobile areaCode roomNo floorNo buildNo startTime endTime : String) :
    Except Err SignedRequest := do
  let _ ← checkCommunityNo st
  let batch := jsBatch now
  let sig := getSig st batch
  let url := st.apiHost ++ "?c=Qrcode&a=getLink&sig=" ++ sig
  let auth := getAuth st batch
  let cn ← communityNoStr st
  let st1 ← toCommunityTime off st.communityTimezone st.localTimezone startTime
  let et1 ← toCommunityTime off st.communityTimezone st.localTimezone endTime
  Except.ok ⟨url, auth,
    [("mobile", mobile), ("areaCode", areaCode), ("roomNo", roomNo), ("floorNo", floorNo),
     ("buildNo", buildNo), ("communityNo", cn), ("startTime", st1), ("endTime", et1),
     ("cardType", "0"), ("times", "0"), ("isLost", "1")],
    "application/json"⟩

/-- Models `s.slice(0, -2) + '00'` on the converted times of
`generateQRPRoomCipher`. -/
def sliceDropLast2Add00 (s : String) : String :=
  String.mk (s.data.take (s.data.length - 2)) ++ "00"

/-- Source `generateQRPRoomCipher` (uclbrt.ts:336). -/
def generateQRPRoomCipher (st : Client) (off : String → Int) (now : DateTime)
    (mobile areaCode roomNo floorNo buildNo startTime endTime : String)
    (cipherType : Nat) : Except Err SignedRequest := do
  let _ ← checkCommunityNo st
  let batch := jsBatch now
  let sig := getSig st batch
  let url := st.apiHost ++ "?c=Qrcode&a=getLink&sig=" ++ sig
  let auth := getAuth st batch
  let stF ← toCommunityTime off st.communityTimezone st.localTimezone startTime
  let etF ← toCommunityTime off st.communityTimezone st.localTimezone endTime
  let stH := sliceDropLast2Add00 stF
  let etH := sliceDropLast2Add00 etF
  let cn ← communityNoStr st
  Except.ok ⟨url, auth,
    [("mobile", mobile), ("areaCode", areaCode), ("roomNo", roomNo), ("floorNo", floorNo),
     ("buildNo", buildNo), ("communityNo", cn), ("startTime", stH), ("endTime", etH),
     ("cipherType", Nat.repr cipherType)],
    "application/json"⟩

/-- Source `reportCardLost` (uclbrt.ts:375). -/
def reportCardLost (st : Client) (now : DateTime) (cardNo : String) (wholeRoom : Bool) :
    Except Err SignedRequest := do
  let _ ← checkCommunityNo st
  let batch := jsBatch now
  let sig := getSig st batch
  let url := st.apiHost ++ "?c=Qrcode&a=reportLost&sig=" ++ sig
  let auth := getAuth st batch
  Except.ok ⟨url, auth,
    [("cardNo", cardNo), ("wholeRoom", if wholeRoom then "1" else "0")],
    "application/json"⟩

/-- Source `getLink` (uclbrt.ts:394).  `encrypt` models
`crypto.publicEncrypt(publicKey, ·)`: the raw RSA ciphertext bytes of the
canonical query string, which the source then base64- and URI-encodes. -/
def getLink (st : Client) (encrypt : String → List Nat) (nowSec : Nat)
    (mobile areaCode cardNo : String) (cardType : Nat) : Except Err String := do
  if mobile = "" then
    Except.error (.configError "mobile cannot be empty.")
  else do
    let _ ← checkCommunityNo st
    let cn ← communityNoStr st
    let data := [("id", st.accountSid), ("token", st.authToken), ("communityNo", cn),
      ("time", Nat.repr nowSec), ("mobile", mobile), ("areaCode", areaCode),
      ("cardNo", cardNo), ("cardType", Nat.repr cardType)]
    let query := objectToQuery data
    let encrypted := base64Encode (encrypt query)
    Except.ok (st.cardHost ++ "apiLogin/?data=" ++ percentEncode encrypted)

/-- Source `getShare` (uclbrt.ts:438). -/
def getShare (st : Client) (off : String → Int) (now : DateTime)
    (mobile areaCode roomFlag : String) (cardType : Nat) (openEndTime : String)
    (lockType resultType : Nat) : Except Err SignedRequest := do
  let _ ← checkCommunityNo st
  let batch := jsBatch now
  let sig := getSig st batch
  let url := st.apiHost ++ "?c=Qrcode&a=getCard&sig=" ++ sig
  let auth := getAuth st batch
  let cn ← communityNoStr st
  let oet ← toCommunityTime off st.communityTimezone st.localTimezone openEndTime
  Except.ok ⟨url, auth,
    [("mobile", mobile), ("areaCode", areaCode), ("communityNo", cn), ("roomFlag", roomFlag),
     ("cardType", Nat.repr cardType), ("lockType", Nat.repr lockType),
     ("resultType", Nat.repr resultType), ("openEndTime", oet)],
    "application/json"⟩

/-- Source `cancel` (uclbrt.ts:529). -/
def cancel (st : Client) (now : DateTime) (cardNo : String) (cardType : Nat) :
    Except Err SignedRequest := do
  let _ ← checkCommunityNo st
  let batch := jsBatch now
  let sig := getSig st batch
  let url := st.apiHost ++ "?c=Qrcode&a=cancelCard&sig=" ++ sig
  let auth := getAuth st batch
  Except.ok ⟨url, auth,
    [("cardNo", cardNo), ("cardType", Nat.repr cardType)],
    "application/json"⟩

/-- Source `getMacList` (uclbrt.ts:563). -/
def getMacList (st : Client) : Except Err SignedRequest := do
  let _ ← checkCommunityNo st
  let url := st.apiHost ++ "Home/Qrm/getMacList"
  let cn ← communityNoStr st
  let data := [("accountSid", st.accountSid), ("communityNo", cn)]
  Except.ok ⟨url, "", data ++ [("sig", getSig2 st data)],
    "application/x-www-form-urlencoded"⟩

/-- Source `makeCard` (uclbrt.ts:581): the concatenation signature is taken
over the seven fields inserted so far, then nine further fields are appended. -/
def makeCard (st : Client) (off : String → Int)
    (issueMac buildNo floorNo roomNo endTime creatorAreaCode creatorMobile
      creatorPassword owner : String) (opentype ownerGender : Nat)
    (ownerAreaCode ownerMobile creatorEmail : String) : Except Err SignedRequest := do
  let _ ← checkCommunityNo st
  let url := st.apiHost ++ "Home/Qrm/makeRoomCard"
  let et ← toCommunityTime off st.communityTimezone st.localTimezone endTime
  let cn ← communityNoStr st
  let pre := [("issueMac", issueMac), ("endTime", et), ("accountSid", st.accountSid),
    ("communityNo", cn), ("buildNo", buildNo), ("floorNo", floorNo), ("roomNo", roomNo)]
  Except.ok ⟨url, "",
    pre ++ [("sig", getSig2 st pre), ("owner", owner),
      ("creatorAreaCode", creatorAreaCode), ("creatorMobile", creatorMobile),
      ("creatorPassword", md5HexStr creatorPassword), ("opentype", Nat.repr opentype),
      ("ownerGender", Nat.repr ownerGender), ("ownerAreaCode", ownerAreaCode),
      ("ownerMobile", ownerMobile), ("creatorEmail", creatorEmail)],
    "application/x-www-form-urlencoded"⟩

/-- Source `makeLostCard` (uclbrt.ts:630): same as `makeCard` plus an `isLost`
field that the source assigns from `creatorEmail`. -/
def makeLostCard (st : Client) (off : String → Int)
    (issueMac buildNo floorNo roomNo endTime creatorAreaCode creatorMobile
      creatorPassword owner : String) (opentype ownerGender : Nat)
    (ownerAreaCode ownerMobile creatorEmail : String) : Except Err SignedRequest := do
  let _ ← checkCommunityNo st
  let url := st.apiHost ++ "Home/Qrm/makeRoomCard"
  let et ← toCommunityTime off st.communityTimezone st.localTimezone endTime
  let cn ← communityNoStr st
  let pre := [("issueMac", issueMac), ("endTime", et), ("accountSid", st.accountSid),
    ("communityNo", cn), ("buildNo", buildNo), ("floorNo", floorNo), ("roomNo", roomNo)]
  Except.ok ⟨url, "",
    pre ++ [("sig", getSig2 st pre), ("owner", owner),
      ("creatorAreaCode", creatorAreaCode), ("creatorMobile", creatorMobile),
      ("creatorPassword", md5HexStr creatorPassword), ("opentype", Nat.repr opentype),
      ("ownerGender", Nat.repr ownerGender), ("ownerAreaCode", ownerAreaCode),
      ("ownerMobile", ownerMobile), ("creatorEmail", creatorEmail),
      ("isLost", creatorEmail)],
    "application/x-www-form-urlencoded"⟩

/-- Source `readCard` (uclbrt.ts:680). -/
def readCard (st : Client)
    (issueMac creatorAreaCode creatorMobile creatorPassword : String)
    (operateCardType : Nat) (creatorEmail : String) : Except Err SignedRequest := do
  let _ ← checkCommunityNo st
  let url := st.apiHost ++ "Home/Qrm/readCard"
  let cn ← communityNoStr st
  let pre := [("accountSid", st.accountSid), ("communityNo", cn), ("issueMac", issueMac),
    ("creatorAreaCode", creatorAreaCode), ("creatorMobile", creatorMobile),
    ("creatorPassword", md5HexStr creatorPassword)]
  Except.ok ⟨url, "",
    pre ++ [("sig", getSig2 st pre), ("operateCardType", Nat.repr operateCardType),
      ("creatorEmail", creatorEmail)],
    "application/x-www-form-urlencoded"⟩

/-- Source `cancelCard` (uclbrt.ts:713). -/
def cancelCard (st : Client)
    (issueMac serialNum creatorAreaCode creatorMobile creatorPassword : String)
    (operateCardType : Nat) (creatorEmail : String) : Except Err SignedRequest := do
  let _ ← checkCommunityNo st
  let url := st.apiHost ++ "Home/Qrm/cancelCard"
  let cn ← communityNoStr st
  let pre := [("accountSid", st.accountSid), ("communityNo", cn), ("issueMac", issueMac),
    ("serialNum", serialNum), ("creatorAreaCode", creatorAreaCode),
    ("creatorMobile", creatorMobile), ("creatorPassword", md5HexStr creatorPassword)]
  Except.ok ⟨url, "",
    pre ++ [("sig", getSig2 st pre), ("operateCardType", Nat.repr operateCardType),
      ("creatorEmail", creatorEmail)],
    "application/x-www-form-urlencoded"⟩

/-- Source `getRoomCardInfo` (uclbrt.ts:748): reads `communityNo` with no
`checkCommunityNo` call. -/
def getRoomCardInfo (st : Client) (now : DateTime) (cardString : String) :
    Except Err SignedRequest := do
  let batch := jsBatch now
  let sig := getSig st batch
  let url := st.apiHost ++ "?c=Qrcode&a=getRoomCardInfo&sig=" ++ sig
  let auth := getAuth st batch
  let cn ← communityNoStr st
  Except.ok ⟨url, auth,
    [("communityNo", cn), ("cardString", cardString)],
    "application/json"⟩

/-- Source `getRecordsByRoom` (uclbrt.ts:766): reads `communityNo` with no
`checkCommunityNo` call; the body is the object `getSig3` mutated. -/
def getRecordsByRoom (st : Client) (nowSec rand : Nat)
    (buildNo floorNo roomNo startDate endDate : String)
    (recordType holderFrom : Nat) : Except Err SignedRequest := do
  let cn ← communityNoStr st
  let data := [("accountSid", st.accountSid), ("timestamp", Nat.repr nowSec),
    ("rand", Nat.repr rand), ("communityNo", cn), ("buildNo", buildNo),
    ("floorNo", floorNo), ("roomNo", roomNo), ("startDate", startDate),
    ("endDate", endDate), ("recordType", Nat.repr recordType),
    ("holderFrom", Nat.repr holderFrom)]
  let s := getSig3 st data
  Except.ok ⟨st.apiHost ++ "Home/Records/queryByRoom?sig=" ++ s.1, "", s.2,
    "application/x-www-form-urlencoded"⟩

/-- Source `fetchRoomInfo` (uclbrt.ts:799): reads `communityNo` with no
`checkCommunityNo` call. -/
def fetchRoomInfo (st : Client) (nowSec : Nat) : Except Err SignedRequest := do
  let cn ← communityNoStr st
  let data := [("accountSid", st.accountSid), ("timestamp", Nat.repr nowSec),
    ("communityNo", cn)]
  let s := getSig3 st data
  Except.ok ⟨st.apiHost ++ "Home/Records/fetchRoomInfo?sig=" ++ s.1, "", s.2,
    "application/x-www-form-urlencoded"⟩

/-- Source `getBoxInfo` (uclbrt.ts:816): reads `communityNo` with no
`checkCommunityNo` call. -/
def getBoxInfo (st : Client) (nowSec : Nat) : Except Err SignedRequest := do
  let cn ← communityNoStr st
  let data := [("accountSid", st.accountSid), ("timestamp", Nat.repr nowSec),
    ("communityNo", cn)]
  let s := getSig3 st data
  Except.ok ⟨st.apiHost ++ "Home/Records/getBoxInfo?sig=" ++ s.1, "", s.2,
    "application/x-www-form-urlencoded"⟩

/-! Response validation (source `curlPost`, uclbrt.ts:176, and the
per-operation result extraction).  A decoded JSON reply is modelled with the
fields these operations inspect. -/

/-- Decoded server reply object. -/
structure Reply where
  status? : Option Nat
  info? : Option String
  cardNo? : Option String
deriving DecidableEq

/-- JavaScript truthiness of an optional string field (absent and "" falsy). -/
def jsTruthyOptStr : Option String → Bool
  | none => false
  | some s => s != ""

/-- Source `curlPost` validation (uclbrt.ts:181-189): non-200 HTTP status
fails first; then `result.status !== 200` fails (also when the field is
absent) carrying `result.info`. -/
def validateReply (httpStatus : Nat) (r : Reply) : Except Err Reply :=
  if httpStatus ≠ 200 then .error (.transportError httpStatus)
  else if r.status? ≠ some 200 then .error (.serverError r.info?)
  else .ok r

/-- Source `create` result extraction (uclbrt.ts:252-257): `cardNo` must be
present and truthy. -/
def extractCardNo (r : Reply) : Except Err String :=
  if jsTruthyOptStr r.cardNo? then .ok (r.cardNo?.getD "")
  else .error (.unexpectedResponse "cardNo")

/-- Full validation pipeline of the `create` reply. -/
def createValidate (httpStatus : Nat) (r : Reply) : Except Err String := do
  let r2 ← validateReply httpStatus r
  extractCardNo r2

/-! Helper lemmas. -/

/-- Destructuring a successful `Except` bind. -/
theorem exceptBind_ok {ε α β : Type} {x : Except ε α} {f : α → Except ε β} {b : β}
    (h : x >>= f = .ok b) : ∃ a, x = .ok a ∧ f a = .ok b := by
  cases x with
  | ok a => exact ⟨a, rfl, h⟩
  | error e => exact absurd h (by simp [Bind.bind, Except.bind])

/-- A `getD` lookup yields a list element or the fallback. -/
theorem getD_mem_or_default {α : Type} (l : List α) (n : Nat) (d : α) :
    l.getD n d ∈ l ∨ l.getD n d = d := by
  rcases h : l[n]? with _ | c
  · right
    simp [List.getD, h]
  · left
    have hm := List.getElem?_mem h
    simpa [List.getD, h] using hm

theorem digitChar_mem (n : Nat) : digitChar n ∈ "0123456789".data := by
  rcases getD_mem_or_default "0123456789".data (n % 10) '0' with h | h
  · exact h
  · rw [digitChar, h]; decide

theorem keepDCT_digitChar (n : Nat) : keepDCT (digitChar n) = true := by
  have h := digitChar_mem n
  have hall : ∀ c ∈ "0123456789".data, keepDCT c = true := by decide
  exact hall _ h

theorem keepDCT_dash : keepDCT '-' = false := by decide

theorem keepDCT_colon : keepDCT ':' = false := by decide

theorem keepDCT_tee : keepDCT 'T' = false := by decide

theorem keepDCT_dot : keepDCT '.' = true := by decide

theorem keepDCT_zero : keepDCT '0' = true := by decide

theorem keepDCT_zed : keepDCT 'Z' = true := by decide

theorem removeDCT_isoChars (dt : DateTime) :
    removeDCT (isoChars dt) =
      dcI4 dt.year ++ dc2 dt.month ++ dc2 dt.day ++ dc2 dt.hour ++ dc2 dt.minute ++
      dc2 dt.second ++ ['.', '0', '0', '0', 'Z'] := by
  simp [removeDCT, isoChars, dcI4, dc2, List.filter_append, List.filter_cons,
    keepDCT_digitChar, keepDCT_dash, keepDCT_colon, keepDCT_tee, keepDCT_dot,
    keepDCT_zero, keepDCT_zed]

/-- The source batch id expression agrees with the spec's 14-digit
`YYYYMMDDHHmmss` rendering, for every calendar time. -/
theorem jsBatch_eq (dt : DateTime) : jsBatch dt = render14Spec dt := by
  unfold jsBatch
  rw [removeDCT_isoChars]
  rfl

/-- The source slice(2, 12) rendering agrees with the spec's `YYMMDDHHmm`. -/
theorem jsRender10_eq (dt : DateTime) : jsRender10 dt = render10Spec dt := by
  unfold jsRender10
  rw [removeDCT_isoChars]
  rfl

/-! Concrete fixtures for witnesses and counterexamples. -/

/-- A configured client (community id set; both timezones equal). -/
def stDemo : Client :=
  ⟨"A", "T", "https://api.uclbrt.com/", "http://cz.uclbrt.com/",
   "Asia/Shanghai", "Asia/Shanghai", some 123456789⟩

/-- A client whose `communityNo` was never set. -/
def stUnset : Client :=
  ⟨"A", "T", "https://api.uclbrt.com/", "http://cz.uclbrt.com/",
   "Asia/Shanghai", "Asia/Shanghai", none⟩

/-- A fixed call time: 2024-01-02 03:04:05 UTC. -/
def now0 : DateTime := ⟨2024, 1, 2, 3, 4, 5⟩

/-- A timezone-offset table with every offset zero. -/
def off0 : String → Int := fun _ => 0

/-- A timezone-offset table: community zone `C` at UTC+8, operator zone `L` at UTC+2. -/
def off1 : String → Int := fun tz => if tz = "C" then 480 else if tz = "L" then 120 else 0

/-- C4.  The concatenation signature is the lowercase hex MD5 digest of the
mapping's values joined in insertion order followed by the authToken, and it
is insertion-order sensitive: the mapping inserted as a,b and the same
mapping inserted as b,a yield different digests. -/
theorem c4_concat_signature :
    (∀ st data, getSig2 st data =
      hexLower (md5 (strUtf8 (strJoin (data.map Prod.snd) ++ st.authToken)))) ∧
    getSig2 stDemo [("a", "1"), ("b", "2")] ≠ getSig2 stDemo [("b", "2"), ("a", "1")] := by
  constructor
  · intro st data
    rfl
  · decide

/-- C5.  The canonical-query signature is the lowercase hex SHA-1 digest of
the key-sorted, ampersand-joined, unescaped query encoding of the mapping
extended with an `authToken` field holding the client's authToken. -/
theorem c5_canonical_signature :
    (∀ st data, (getSig3 st data).1 =
      hexLower (sha1 (strUtf8 (objectToQuery (jsSet data "authToken" st.authToken))))) ∧
    objectToQuery [("b", "2"), ("a", "1"), ("authToken", "T")] = "a=1&authToken=T&b=2" ∧
    (getSig3 stDemo [("b", "2"), ("a", "1")]).1 = sha1HexStr "a=1&authToken=T&b=2" := by
  refine ⟨fun st data => rfl, by decide, by decide⟩

/-- C9.  `getSig3` mutates its mapping, adding the `authToken` field with the
client's raw authToken, and every Records-family operation sends that mutated
mapping as its request body, so each of those bodies carries the raw
authToken in plaintext. -/
theorem c9_records_token :
    (∀ st data, (getSig3 st data).2 = jsSet data "authToken" st.authToken) ∧
    (∀ st nowSec rand buildNo floorNo roomNo startDate endDate recordType holderFrom r,
      getRecordsByRoom st nowSec rand buildNo floorNo roomNo startDate endDate
        recordType holderFrom = .ok r → ("authToken", st.authToken) ∈ r.body) ∧
    (∀ st nowSec r, fetchRoomInfo st nowSec = .ok r → ("authToken", st.authToken) ∈ r.body) ∧
    (∀ st nowSec r, getBoxInfo st nowSec = .ok r → ("authToken", st.authToken) ∈ r.body) := by
  refine ⟨fun st data => rfl, ?_, ?_, ?_⟩
  · intro st nowSec rand buildNo floorNo roomNo startDate endDate recordType holderFrom r h
    obtain ⟨cn, hcn, h2⟩ := exceptBind_ok h
    cases h2
    simp [getSig3, jsSet]
  · intro st nowSec r h
    obtain ⟨cn, hcn, h2⟩ := exceptBind_ok h
    cases h2
    simp [getSig3, jsSet]
  · intro st nowSec r h
    obtain ⟨cn, hcn, h2⟩ := exceptBind_ok h
    cases h2
    simp [getSig3, jsSet]

/-- The successful result of a concrete Records-family call, used by the C9 witness. -/
def c9req : SignedRequest :=
  (getRecordsByRoom stDemo 1700000000 12345 "B" "F" "R" "2301010000" "2301020000" 0 0).toOption.getD
    ⟨"", "", [], ""⟩

/-- C9 witness: the concrete request body of a `getRecordsByRoom` call
contains the raw authToken. -/
theorem c9_witness : ("authToken", stDemo.authToken) ∈ c9req.body :=
  c9_records_token.2.1 stDemo 1700000000 12345 "B" "F" "R" "2301010000" "2301020000" 0 0
    c9req (by decide)

/-- C10.  For each Qrm-family operation the concatenation signature is
computed only over the fields inserted before the `sig` field is assigned:
two calls whose pre-sig fields agree and that differ only in the fields the
source appends after `sig` produce the same `sig` value in the request body. -/
theorem c10_qrm_sig :
    (∀ st off issueMac buildNo floorNo roomNo endTime ca1 cm1 cp1 o1 ot1 og1 oa1 om1 ce1
        ca2 cm2 cp2 o2 ot2 og2 oa2 om2 ce2 r1 r2,
      makeCard st off issueMac buildNo floorNo roomNo endTime ca1 cm1 cp1 o1 ot1 og1 oa1 om1 ce1
        = .ok r1 →
      makeCard st off issueMac buildNo floorNo roomNo endTime ca2 cm2 cp2 o2 ot2 og2 oa2 om2 ce2
        = .ok r2 →
      jsGet r1.body "sig" = jsGet r2.body "sig") ∧
    (∀ st off issueMac buildNo floorNo roomNo endTime ca1 cm1 cp1 o1 ot1 og1 oa1 om1 ce1
        ca2 cm2 cp2 o2 ot2 og2 oa2 om2 ce2 r1 r2,
      makeLostCard st off issueMac buildNo floorNo roomNo endTime ca1 cm1 cp1 o1 ot1 og1 oa1
        om1 ce1 = .ok r1 →
      makeLostCard st off issueMac buildNo floorNo roomNo endTime ca2 cm2 cp2 o2 ot2 og2 oa2
        om2 ce2 = .ok r2 →
      jsGet r1.body "sig" = jsGet r2.body "sig") ∧
    (∀ st issueMac ca cm cp oct1 ce1 oct2 ce2 r1 r2,
      readCard st issueMac ca cm cp oct1 ce1 = .ok r1 →
      readCard st issueMac ca cm cp oct2 ce2 = .ok r2 →
      jsGet r1.body "sig" = jsGet r2.body "sig") ∧
    (∀ st issueMac serialNum ca cm cp oct1 ce1 oct2 ce2 r1 r2,
      cancelCard st issueMac serialNum ca cm cp oct1 ce1 = .ok r1 →
      cancelCard st issueMac serialNum ca cm cp oct2 ce2 = .ok r2 →
      jsGet r1.body "sig" = jsGet r2.body "sig") := by
  refine ⟨?_, ?_, ?_, ?_⟩
  · intro st off issueMac buildNo floorNo roomNo endTime ca1 cm1 cp1 o1 ot1 og1 oa1 om1 ce1
      ca2 cm2 cp2 o2 ot2 og2 oa2 om2 ce2 r1 r2 h1 h2
    obtain ⟨u1, hu1, h1⟩ := exceptBind_ok h1
    obtain ⟨et1, het1, h1⟩ := exceptBind_ok h1
    obtain ⟨cn1, hcn1, h1⟩ := exceptBind_ok h1
    obtain ⟨u2, hu2, h2⟩ := exceptBind_ok h2
    obtain ⟨et2, het2, h2⟩ := exceptBind_ok h2
    obtain ⟨cn2, hcn2, h2⟩ := exceptBind_ok h2
    rw [het1] at het2
    injection het2 with he
    rw [hcn1] at hcn2
    injection hcn2 with hc
    cases h1
    cases h2
    rw [he, hc]
    rfl
  · intro st off issueMac buildNo floorNo roomNo endTime ca1 cm1 cp1 o1 ot1 og1 oa1 om1 ce1
      ca2 cm2 cp2 o2 ot2 og2 oa2 om2 ce2 r1 r2 h1 h2
    obtain ⟨u1, hu1, h1⟩ := exceptBind_ok h1
    obtain ⟨et1, het1, h1⟩ := exceptBind_ok h1
    obtain ⟨cn1, hcn1, h1⟩ := exceptBind_ok h1
    obtain ⟨u2, hu2, h2⟩ := exceptBind_ok h2
    obtain ⟨et2, het2, h2⟩ := exceptBind_ok h2
    obtain ⟨cn2, hcn2, h2⟩ := exceptBind_ok h2
    rw [het1] at het2
    injection het2 with he
    rw [hcn1] at hcn2
    injection hcn2 with hc
    cases h1
    cases h2
    rw [he, hc]
    rfl
  · intro st issueMac ca cm cp oct1 ce1 oct2 ce2 r1 r2 h1 h2
    obtain ⟨u1, hu1, h1⟩ := exceptBind_ok h1
    obtain ⟨cn1, hcn1, h1⟩ := exceptBind_ok h1
    obtain ⟨u2, hu2, h2⟩ := exceptBind_ok h2
    obtain ⟨cn2, hcn2, h2⟩ := exceptBind_ok h2
    rw [hcn1] at hcn2
    injection hcn2 with hc
    cases h1
    cases h2
    rw [hc]
    rfl
  · intro st issueMac serialNum ca cm cp oct1 ce1 oct2 ce2 r1 r2 h1 h2
    obtain ⟨u1, hu1, h1⟩ := exceptBind_ok h1
    obtain ⟨cn1, hcn1, h1⟩ := exceptBind_ok h1
    obtain ⟨u2, hu2, h2⟩ := exceptBind_ok h2
    obtain ⟨cn2, hcn2, h2⟩ := exceptBind_ok h2
    rw [hcn1] at hcn2
    injection hcn2 with hc
    cases h1
    cases h2
    rw [hc]
    rfl

/-- Concrete `makeCard` results for the C10 witness: the calls agree on the
pre-sig fields and differ in every field appended after `sig`. -/
def c10r1 : SignedRequest :=
  (makeCard stDemo off0 "MAC1" "B" "F" "R" "2501010000" "021" "138" "pw" "own1" 0 1 "" "" ""
    ).toOption.getD ⟨"", "", [], ""⟩

def c10r2 : SignedRequest :=
  (makeCard stDemo off0 "MAC1" "B" "F" "R" "2501010000" "022" "139" "pw2" "own2" 1 0 "86" "137"
    "e").toOption.getD ⟨"", "", [], ""⟩

/-- C10 witness: two concrete `makeCard` calls differing only in post-sig
fields carry the same `sig` value. -/
theorem c10_witness : jsGet c10r1.body "sig" = jsGet c10r2.body "sig" :=
  c10_qrm_sig.1 stDemo off0 "MAC1" "B" "F" "R" "2501010000" "021" "138" "pw" "own1" 0 1 "" "" ""
    "022" "139" "pw2" "own2" 1 0 "86" "137" "e" c10r1 c10r2 (by decide) (by decide)

/-- C2 counterexample: a decoded reply with HTTP status 200 that lacks the
reply-level `status` field but carries `cardNo = "X"` does not pass
validation as the claim states; the source's `result.status !== 200` check
rejects it with the server-error path. -/
theorem c2_counterexample :
    createValidate 200 ⟨none, none, some "X"⟩ = .error (.serverError none) := by decide

/-- C2 amended.  Validation of a decoded reply: non-200 HTTP status fails
with the transport error; the reply-level `status` field must be present and
equal 200, else the server error carrying `info` (a reply lacking the field
fails this check); the expected payload field must be present and truthy,
else the unexpected-response error.  For the create operation:
status 200 with cardNo "X" returns "X", status 500 is a server error, and
status 200 without cardNo is an unexpected-response error. -/
theorem c2_amended :
    (∀ s r, s ≠ 200 → validateReply s r = .error (.transportError s)) ∧
    (∀ r, r.status? ≠ some 200 → validateReply 200 r = .error (.serverError r.info?)) ∧
    (∀ r, r.status? = some 200 → validateReply 200 r = .ok r) ∧
    (∀ r, r.status? = some 200 → jsTruthyOptStr r.cardNo? = false →
      createValidate 200 r = .error (.unexpectedResponse "cardNo")) ∧
    createValidate 200 ⟨some 200, none, some "X"⟩ = .ok "X" ∧
    createValidate 200 ⟨some 500, none, none⟩ = .error (.serverError none) ∧
    createValidate 200 ⟨some 200, none, none⟩ = .error (.unexpectedResponse "cardNo") := by
  refine ⟨?_, ?_, ?_, ?_, by decide, by decide, by decide⟩
  · intro s r hs
    simp [validateReply, hs]
  · intro r hr
    simp [validateReply, hr]
  · intro r hr
    simp [validateReply, hr]
  · intro r hr hc
    simp [createValidate, validateReply, extractCardNo, hr, hc, Bind.bind, Except.bind]

/-- C2 witness: the amended theorem applied to a concrete non-200 reply. -/
theorem c2_witness :
    validateReply 500 ⟨some 200, none, none⟩ = .error (.transportError 500) :=
  c2_amended.1 500 ⟨some 200, none, none⟩ (by decide)

theorem checkCommunityNo_unset {st : Client} (h : st.communityNo = none) :
    checkCommunityNo st = .error (.configError "communityNo cannot be empty.") := by
  simp [checkCommunityNo, jsFalsyNum, h]

theorem communityNoStr_unset {st : Client} (h : st.communityNo = none) :
    communityNoStr st = .error .typeError := by
  simp [communityNoStr, h]

/-- C1 counterexample: `getRecordsByRoom` and `getRoomCardInfo` include
`communityNo` in their payload, yet with the community id unset they fail
with a TypeError from reading the unset field, not with the configuration
error `communityNo cannot be empty.` that the claim asserts. -/
theorem c1_counterexample :
    getRecordsByRoom stUnset 1700000000 12345 "B" "F" "R" "2301010000" "2301020000" 0 0
      = .error .typeError ∧
    getRoomCardInfo stUnset now0 "CS" = .error .typeError := by
  constructor
  · decide
  · decide

/-- C1 amended.  With the community id unset, the operations that call
`checkCommunityNo` — create (hence create-room-key), createRoomLostKey,
generateQRPRoomCipher, reportCardLost, getLink (for non-empty mobile),
getShare, cancel, getMacList, makeCard, makeLostCard, readCard and
cancelCard — fail with ConfigurationError before any request is issued,
while getRoomCardInfo, getRecordsByRoom, fetchRoomInfo and getBoxInfo skip
the check and fail with a TypeError from reading the unset field instead. -/
theorem c1_amended (st : Client) (h : st.communityNo = none) :
    (∀ off now mobile areaCode roomNo floorNo buildNo startTime endTime sendSms cardType
        times opentype,
      create st off now mobile areaCode roomNo floorNo buildNo startTime endTime sendSms
        cardType times opentype = .error (.configError "communityNo cannot be empty.")) ∧
    (∀ off now mobile areaCode roomNo floorNo buildNo startTime endTime sendSms times,
      createRoomKey st off now mobile areaCode roomNo floorNo buildNo startTime endTime
        sendSms times = .error (.configError "communityNo cannot be empty.")) ∧
    (∀ off now mobile areaCode roomNo floorNo buildNo startTime endTime,
      createRoomLostKey st off now mobile areaCode roomNo floorNo buildNo startTime endTime
        = .error (.configError "communityNo cannot be empty.")) ∧
    (∀ off now mobile areaCode roomNo floorNo buildNo startTime endTime cipherType,
      generateQRPRoomCipher st off now mobile areaCode roomNo floorNo buildNo startTime
        endTime cipherType = .error (.configError "communityNo cannot be empty.")) ∧
    (∀ now cardNo wholeRoom,
      reportCardLost st now cardNo wholeRoom
        = .error (.configError "communityNo cannot be empty.")) ∧
    (∀ encrypt nowSec mobile areaCode cardNo cardType, mobile ≠ "" →
      getLink st encrypt nowSec mobile areaCode cardNo cardType
        = .error (.configError "communityNo cannot be empty.")) ∧
    (∀ off now mobile areaCode roomFlag cardType openEndTime lockType resultType,
      getShare st off now mobile areaCode roomFlag cardType openEndTime lockType resultType
        = .error (.configError "communityNo cannot be empty.")) ∧
    (∀ now cardNo cardType,
      cancel st now cardNo cardType = .error (.configError "communityNo cannot be empty.")) ∧
    getMacList st = .error (.configError "communityNo cannot be empty.") ∧
    (∀ off issueMac buildNo floorNo roomNo endTime ca cm cp o ot og oa om ce,
      makeCard st off issueMac buildNo floorNo roomNo endTime ca cm cp o ot og oa om ce
        = .error (.configError "communityNo cannot be empty.")) ∧
    (∀ off issueMac buildNo floorNo roomNo endTime ca cm cp o ot og oa om ce,
      makeLostCard st off issueMac buildNo floorNo roomNo endTime ca cm cp o ot og oa om ce
        = .error (.configError "communityNo cannot be empty.")) ∧
    (∀ issueMac ca cm cp oct ce,
      readCard st issueMac ca cm cp oct ce
        = .error (.configError "communityNo cannot be empty.")) ∧
    (∀ issueMac serialNum ca cm cp oct ce,
      cancelCard st issueMac serialNum ca cm cp oct ce
        = .error (.configError "communityNo cannot be empty.")) ∧
    (∀ now cardString, getRoomCardInfo st now cardString = .error .typeError) ∧
    (∀ nowSec rand buildNo floorNo roomNo startDate endDate recordType holderFrom,
      getRecordsByRoom st nowSec rand buildNo floorNo roomNo startDate endDate recordType
        holderFrom = .error .typeError) ∧
    (∀ nowSec, fetchRoomInfo st nowSec = .error .typeError) ∧
    (∀ nowSec, getBoxInfo st nowSec = .error .typeError) := by
  refine ⟨?_, ?_, ?_, ?_, ?_, ?_, ?_, ?_, ?_, ?_, ?_, ?_, ?_, ?_, ?_, ?_, ?_⟩
  · intro off now mobile areaCode roomNo floorNo buildNo startTime endTime sendSms cardType
      times opentype
    unfold create
    rw [checkCommunityNo_unset h]
    rfl
  · intro off now mobile areaCode roomNo floorNo buildNo startTime endTime sendSms times
    unfold createRoomKey create
    rw [checkCommunityNo_unset h]
    rfl
  · intro off now mobile areaCode roomNo floorNo buildNo startTime endTime
    unfold createRoomLostKey
    rw [checkCommunityNo_unset h]
    rfl
  · intro off now mobile areaCode roomNo floorNo buildNo startTime endTime cipherType
    unfold generateQRPRoomCipher
    rw [checkCommunityNo_unset h]
    rfl
  · intro now cardNo wholeRoom
    unfold reportCardLost
    rw [checkCommunityNo_unset h]
    rfl
  · intro encrypt nowSec mobile areaCode cardNo cardType hm
    unfold getLink
    rw [if_neg hm, checkCommunityNo_unset h]
    rfl
  · intro off now mobile areaCode roomFlag cardType openEndTime lockType resultType
    unfold getShare
    rw [checkCommunityNo_unset h]
    rfl
  · intro now cardNo cardType
    unfold cancel
    rw [checkCommunityNo_unset h]
    rfl
  · unfold getMacList
    rw [checkCommunityNo_unset h]
    rfl
  · intro off issueMac buildNo floorNo roomNo endTime ca cm cp o ot og oa om ce
    unfold makeCard
    rw [checkCommunityNo_unset h]
    rfl
  · intro off issueMac buildNo floorNo roomNo endTime ca cm cp o ot og oa om ce
    unfold makeLostCard
    rw [checkCommunityNo_unset h]
    rfl
  · intro issueMac ca cm cp oct ce
    unfold readCard
    rw [checkCommunityNo_unset h]
    rfl
  · intro issueMac serialNum ca cm cp oct ce
    unfold cancelCard
    rw [checkCommunityNo_unset h]
    rfl
  · intro now cardString
    unfold getRoomCardInfo
    rw [communityNoStr_unset h]
    rfl
  · intro nowSec rand buildNo floorNo roomNo startDate endDate recordType holderFrom
    unfold getRecordsByRoom
    rw [communityNoStr_unset h]
    rfl
  · intro nowSec
    unfold fetchRoomInfo
    rw [communityNoStr_unset h]
    rfl
  · intro nowSec
    unfold getBoxInfo
    rw [communityNoStr_unset h]
    rfl

/-- C1 witness: the amended theorem at the concrete unset client — the
create-room-key end-to-end scenario of the spec. -/
theorem c1_witness :
    createRoomKey stUnset off0 now0 "13800000000" "86" "101" "" "" "" "" 0 0
      = .error (.configError "communityNo cannot be empty.") :=
  (c1_amended stUnset rfl).2.1 off0 now0 "13800000000" "86" "101" "" "" "" "" 0 0

/-- C3.  Every Qrcode-family operation signs with the batch scheme: the `sig`
query parameter appended to the url equals the uppercase hex MD5 digest of
accountSid + authToken + batchId, the Authorization header value equals
Base64(accountSid + ":" + batchId), and the batchId is the 14-digit compact
UTC timestamp `YYYYMMDDHHmmss` of the call-time clock. -/
theorem c3_batch_signature :
    (∀ now, (render14Spec now).length = 14 ∧
      ∀ c ∈ (render14Spec now).data, c.isDigit = true) ∧
    (∀ st off now mobile areaCode roomNo floorNo buildNo startTime endTime sendSms cardType
        times opentype r,
      create st off now mobile areaCode roomNo floorNo buildNo startTime endTime sendSms
        cardType times opentype = .ok r →
      r.url = st.apiHost ++ "?c=Qrcode&a=getLink&sig=" ++
          strUpper (md5HexStr (st.accountSid ++ st.authToken ++ render14Spec now)) ∧
      r.auth = base64Encode (strUtf8 (st.accountSid ++ ":" ++ render14Spec now))) ∧
    (∀ st off now mobile areaCode roomNo floorNo buildNo startTime endTime r,
      createRoomLostKey st off now mobile areaCode roomNo floorNo buildNo startTime endTime
        = .ok r →
      r.url = st.apiHost ++ "?c=Qrcode&a=getLink&sig=" ++
          strUpper (md5HexStr (st.accountSid ++ st.authToken ++ render14Spec now)) ∧
      r.auth = base64Encode (strUtf8 (st.accountSid ++ ":" ++ render14Spec now))) ∧
    (∀ st off now mobile areaCode roomNo floorNo buildNo startTime endTime cipherType r,
      generateQRPRoomCipher st off now mobile areaCode roomNo floorNo buildNo startTime
        endTime cipherType = .ok r →
      r.url = st.apiHost ++ "?c=Qrcode&a=getLink&sig=" ++
          strUpper (md5HexStr (st.accountSid ++ st.authToken ++ render14Spec now)) ∧
      r.auth = base64Encode (strUtf8 (st.accountSid ++ ":" ++ render14Spec now))) ∧
    (∀ st now cardNo wholeRoom r,
      reportCardLost st now cardNo wholeRoom = .ok r →
      r.url = st.apiHost ++ "?c=Qrcode&a=reportLost&sig=" ++
          strUpper (md5HexStr (st.accountSid ++ st.authToken ++ render14Spec now)) ∧
      r.auth = base64Encode (strUtf8 (st.accountSid ++ ":" ++ render14Spec now))) ∧
    (∀ st off now mobile areaCode roomFlag cardType openEndTime lockType resultType r,
      getShare st off now mobile areaCode roomFlag cardType openEndTime lockType resultType
        = .ok r →
      r.url = st.apiHost ++ "?c=Qrcode&a=getCard&sig=" ++
          strUpper (md5HexStr (st.accountSid ++ st.authToken ++ render14Spec now)) ∧
      r.auth = base64Encode (strUtf8 (st.accountSid ++ ":" ++ render14Spec now))) ∧
    (∀ st now cardNo cardType r,
      cancel st now cardNo cardType = .ok r →
      r.url = st.apiHost ++ "?c=Qrcode&a=cancelCard&sig=" ++
          strUpper (md5HexStr (st.accountSid ++ st.authToken ++ render14Spec now)) ∧
      r.auth = base64Encode (strUtf8 (st.accountSid ++ ":" ++ render14Spec now))) ∧
    (∀ st now cardString r,
      getRoomCardInfo st now cardString = .ok r →
      r.url = st.apiHost ++ "?c=Qrcode&a=getRoomCardInfo&sig=" ++
          strUpper (md5HexStr (st.accountSid ++ st.authToken ++ render14Spec now)) ∧
      r.auth = base64Encode (strUtf8 (st.accountSid ++ ":" ++ render14Spec now))) := by
  have hall : ∀ x ∈ "0123456789".data, x.isDigit = true := by decide
  refine ⟨?_, ?_, ?_, ?_, ?_, ?_, ?_, ?_⟩
  · intro now
    constructor
    · rfl
    · intro c hc
      simp [render14Spec, dcI4, dc2] at hc
      rcases hc with h | h | h | h | h | h | h | h | h | h | h | h | h | h <;>
        (subst h; exact hall _ (digitChar_mem _))
  · intro st off now mobile areaCode roomNo floorNo buildNo startTime endTime sendSms
      cardType times opentype r h
    obtain ⟨u, hu, h⟩ := exceptBind_ok h
    obtain ⟨cn, hcn, h⟩ := exceptBind_ok h
    obtain ⟨t1, ht1, h⟩ := exceptBind_ok h
    obtain ⟨t2, ht2, h⟩ := exceptBind_ok h
    cases h
    simp only [jsBatch_eq]
    exact ⟨rfl, rfl⟩
  · intro st off now mobile areaCode roomNo floorNo buildNo startTime endTime r h
    obtain ⟨u, hu, h⟩ := exceptBind_ok h
    obtain ⟨cn, hcn, h⟩ := exceptBind_ok h
    obtain ⟨t1, ht1, h⟩ := exceptBind_ok h
    obtain ⟨t2, ht2, h⟩ := exceptBind_ok h
    cases h
    simp only [jsBatch_eq]
    exact ⟨rfl, rfl⟩
  · intro st off now mobile areaCode roomNo floorNo buildNo startTime endTime cipherType r h
    obtain ⟨u, hu, h⟩ := exceptBind_ok h
    obtain ⟨t1, ht1, h⟩ := exceptBind_ok h
    obtain ⟨t2, ht2, h⟩ := exceptBind_ok h
    obtain ⟨cn, hcn, h⟩ := exceptBind_ok h
    cases h
    simp only [jsBatch_eq]
    exact ⟨rfl, rfl⟩
  · intro st now cardNo wholeRoom r h
    obtain ⟨u, hu, h⟩ := exceptBind_ok h
    cases h
    simp only [jsBatch_eq]
    exact ⟨rfl, rfl⟩
  · intro st off now mobile areaCode roomFlag cardType openEndTime lockType resultType r h
    obtain ⟨u, hu, h⟩ := exceptBind_ok h
    obtain ⟨cn, hcn, h⟩ := exceptBind_ok h
    obtain ⟨t1, ht1, h⟩ := exceptBind_ok h
    cases h
    simp only [jsBatch_eq]
    exact ⟨rfl, rfl⟩
  · intro st now cardNo cardType r h
    obtain ⟨u, hu, h⟩ := exceptBind_ok h
    cases h
    simp only [jsBatch_eq]
    exact ⟨rfl, rfl⟩
  · intro st now cardString r h
    obtain ⟨cn, hcn, h⟩ := exceptBind_ok h
    cases h
    simp only [jsBatch_eq]
    exact ⟨rfl, rfl⟩

/-- The successful result of a concrete `create` call, for the C3 witness. -/
def c3req : SignedRequest :=
  (create stDemo off0 now0 "13800000000" "86" "101" "" "" "" "" 0 0 0 0).toOption.getD
    ⟨"", "", [], ""⟩

/-- C3 witness: the batch-signature theorem applied to a concrete `create` call. -/
theorem c3_witness :
    c3req.url = stDemo.apiHost ++ "?c=Qrcode&a=getLink&sig=" ++
      strUpper (md5HexStr (stDemo.accountSid ++ stDemo.authToken ++ render14Spec now0)) ∧
    c3req.auth = base64Encode (strUtf8 (stDemo.accountSid ++ ":" ++ render14Spec now0)) :=
  c3_batch_signature.2.1 stDemo off0 now0 "13800000000" "86" "101" "" "" "" "" 0 0 0 0
    c3req (by decide)

/-- The two-character global match yields `floor(length / 2)` groups on
newline-free input. -/
theorem chunk2_length (l : List Char) (h : ∀ c ∈ l, c ≠ '\n') :
    (chunk2 l).length = l.length / 2 := by
  induction l using chunk2.induct with
  | case1 a b rest ih1 ih2 =>
      have ha : a ≠ '\n' := h a (by simp)
      have hb : b ≠ '\n' := h b (by simp)
      have hcond : (a != '\n' && b != '\n') = true := by simp [ha, hb]
      have ih := ih1 (fun c hc => h c (by simp [hc]))
      simp only [chunk2, hcond, cond_true, List.length_cons, ih]
      omega
  | case2 t ht =>
      match t, ht with
      | [], _ => simp [chunk2]
      | [a], _ => simp [chunk2]
      | a :: b :: rest, ht => exact absurd rfl (fun hh => ht a b rest hh)

/-- C6 counterexample: two non-empty inputs that are not 10 characters long
yet raise no FormatError — any string when the two timezones are equal
(the fast path precedes the format check), and an 11-character string when
they differ (the regex still yields exactly 5 two-character groups). -/
theorem c6_counterexample :
    toCommunityTime off0 "Z" "Z" "xyz" = .ok "xyz" ∧
    toCommunityTime off0 "A" "B" "01020304050" = .ok "0102030405" := by
  constructor
  · decide
  · decide

/-- C6 amended.  When the community timezone differs from the operator's
local timezone, `toCommunityTime` fails with FormatError on every non-empty
newline-free input whose length is neither 10 nor 11 (the regex check counts
two-character groups, so a trailing 11th character is accepted); when the
timezones are equal any input is returned unchanged before the check. -/
theorem c6_amended (off : String → Int) (ctz ltz s : String)
    (hne : ctz ≠ ltz) (hs : s ≠ "") (hnl : ∀ c ∈ s.data, c ≠ '\n')
    (hlen : s.length ≠ 10 ∧ s.length ≠ 11) :
    toCommunityTime off ctz ltz s = .error (.formatError "time format error.") := by
  have hc := chunk2_length s.data hnl
  have hx : (chunk2 s.data).length ≠ 5 := by
    rw [hc]
    have h1 := hlen.1
    have h2 := hlen.2
    have hl : s.length = s.data.length := rfl
    omega
  simp only [toCommunityTime, if_neg hs, if_neg hne, if_pos hx]

/-- C6 witness: the amended theorem at a concrete 4-character input with
differing timezones. -/
theorem c6_witness :
    toCommunityTime off0 "A" "B" "xyzw" = .error (.formatError "time format error.") :=
  c6_amended off0 "A" "B" "xyzw" (by decide) (by decide) (by decide) (by decide)

/-- The parse phase of `toCommunityTime`: the two-character groups of the
input, accepted when there are exactly five, read as an in-range local
calendar time. -/
def parseCompact (s : String) : Option DateTime :=
  let t := chunk2 s.data
  if t.length = 5 then jsParseLocalDateTime t else none

/-- Modelled from the spec: the conversion §4.2 describes — interpret the
compact string as a calendar timestamp in the operator's local timezone,
convert to the community's timezone, and re-render as compact `YYMMDDHHmm`.
In the fixed-offset model this shifts the calendar time by
(community offset − local offset).  Defined for comparison with the
source's `toCommunityTime`. -/
def specCommunityTime (off : String → Int) (ctz ltz : String) (s : String) : Option String :=
  (parseCompact s).map
    (fun dt => render10Spec (minutesToDt (dtToMinutes dt - off ltz + off ctz)))

/-- C7 counterexample: with the operator zone at UTC+2 and the community zone
at UTC+8, the source converts 2023-05-06 10:00 to "2305061400", while the
conversion the claim describes yields "2305061600": the code result is the
community rendering shifted back by the operator's local offset. -/
theorem c7_counterexample :
    toCommunityTime off1 "C" "L" "2305061000" = .ok "2305061400" ∧
    specCommunityTime off1 "C" "L" "2305061000" = some "2305061600" ∧
    ("2305061400" : String) ≠ "2305061600" := by
  refine ⟨by decide, by decide, by decide⟩

/-- C7 amended.  `toCommunityTime("")` returns `""`; for any input the result
is the input unchanged when the community timezone equals the operator's
local timezone; otherwise, for a parseable input, the result is the input
interpreted in the operator's local timezone shifted by
(community offset − 2 × local offset) and re-rendered as compact
`YYMMDDHHmm` — i.e. the community-timezone conversion the claim describes
additionally shifted back by the operator's local UTC offset, agreeing with
the claim exactly when the operator offset is zero. -/
theorem c7_amended :
    (∀ off ctz ltz, toCommunityTime off ctz ltz "" = .ok "") ∧
    (∀ off tz s, toCommunityTime off tz tz s = .ok s) ∧
    (∀ off ctz ltz s dt, ctz ≠ ltz → s ≠ "" → parseCompact s = some dt →
      toCommunityTime off ctz ltz s =
        .ok (render10Spec (minutesToDt (dtToMinutes dt + off ctz - 2 * off ltz)))) := by
  refine ⟨fun off ctz ltz => rfl, ?_, ?_⟩
  · intro off tz s
    by_cases hs : s = ""
    · subst hs
      rfl
    · simp [toCommunityTime, hs]
  · intro off ctz ltz s dt hne hs hp
    have hl5 : (chunk2 s.data).length = 5 := by
      by_cases hl : (chunk2 s.data).length = 5
      · exact hl
      · simp [parseCompact, hl] at hp
    have hj : jsParseLocalDateTime (chunk2 s.data) = some dt := by
      simpa [parseCompact, hl5] using hp
    have hne5 : ¬((chunk2 s.data).length ≠ 5) := by simp [hl5]
    simp only [toCommunityTime, if_neg hs, if_neg hne, if_neg hne5, hj]
    rw [jsRender10_eq]
    have harg : jsShiftTz (dtToMinutes dt - off ltz) (off ctz) (off ltz) =
        dtToMinutes dt + off ctz - 2 * off ltz := by
      simp [jsShiftTz]
      ring
    rw [harg]

/-- C7 witness: the amended theorem at the counterexample's offsets and input. -/
theorem c7_witness :
    toCommunityTime off1 "C" "L" "2305061000" =
      .ok (render10Spec (minutesToDt (dtToMinutes ⟨2023, 5, 6, 10, 0, 0⟩ +
        off1 "C" - 2 * off1 "L"))) :=
  c7_amended.2.2 off1 "C" "L" "2305061000" ⟨2023, 5, 6, 10, 0, 0⟩
    (by decide) (by decide) (by decide)

/-! Character-set lemmas for the generated link (claim C8). -/

theorem hexCharUpper_mem (n : Nat) : hexCharUpper n ∈ "0123456789ABCDEF".data := by
  rcases getD_mem_or_default "0123456789ABCDEF".data (n % 16) '0' with h | h
  · exact h
  · rw [hexCharUpper, h]
    decide

theorem b64Char_mem (n : Nat) :
    b64Char n ∈ "ABCDEFGHIJKLMNOPQRSTUVWXYZabcdefghijklmnopqrstuvwxyz0123456789+/".data := by
  rcases getD_mem_or_default
    "ABCDEFGHIJKLMNOPQRSTUVWXYZabcdefghijklmnopqrstuvwxyz0123456789+/".data (n % 64) 'A'
    with h | h
  · exact h
  · rw [b64Char, h]
    decide

/-- Every character of a base64 rendering is an alphabet character or padding. -/
theorem base64Core_chars (bytes : List Nat) (c : Char) (h : c ∈ base64Core bytes) :
    c ∈ "ABCDEFGHIJKLMNOPQRSTUVWXYZabcdefghijklmnopqrstuvwxyz0123456789+/".data ∨ c = '=' := by
  induction bytes using base64Core.induct with
  | case1 b0 b1 b2 rest ih =>
      simp only [base64Core, List.mem_cons] at h
      rcases h with rfl | rfl | rfl | rfl | h
      · exact .inl (b64Char_mem _)
      · exact .inl (b64Char_mem _)
      · exact .inl (b64Char_mem _)
      · exact .inl (b64Char_mem _)
      · exact ih h
  | case2 b0 b1 =>
      simp only [base64Core, List.mem_cons] at h
      rcases h with rfl | rfl | rfl | h
      · exact .inl (b64Char_mem _)
      · exact .inl (b64Char_mem _)
      · exact .inl (b64Char_mem _)
      · simp at h
        exact .inr h
  | case3 b0 =>
      simp only [base64Core, List.mem_cons] at h
      rcases h with rfl | rfl | rfl | h
      · exact .inl (b64Char_mem _)
      · exact .inl (b64Char_mem _)
      · exact .inr rfl
      · simp at h
        exact .inr h
  | case4 => simp [base64Core] at h

/-- Characters contributed by the escape path of `encodeURIComponent`. -/
theorem peByte_fold_chars (bs : List Nat) (acc : List Char) (c : Char)
    (h : c ∈ bs.foldr peByte acc) :
    c = '%' ∨ c ∈ "0123456789ABCDEF".data ∨ c ∈ acc := by
  induction bs with
  | nil => exact .inr (.inr h)
  | cons b rest ih =>
      simp only [List.foldr_cons, peByte, List.mem_cons] at h
      rcases h with rfl | rfl | rfl | h
      · exact .inl rfl
      · exact .inr (.inl (hexCharUpper_mem _))
      · exact .inr (.inl (hexCharUpper_mem _))
      · exact ih h

/-- Every character of `encodeURIComponent` output is a character of the
input, a percent sign, or an uppercase hex digit. -/
theorem percentEncode_chars (s : String) (c : Char) (h : c ∈ (percentEncode s).data) :
    c ∈ s.data ∨ c = '%' ∨ c ∈ "0123456789ABCDEF".data := by
  have key : ∀ l : List Char, c ∈ l.foldr peStep [] →
      c ∈ l ∨ c = '%' ∨ c ∈ "0123456789ABCDEF".data := by
    intro l hl
    induction l with
    | nil => simp at hl
    | cons a rest ih =>
        simp only [List.foldr_cons, peStep] at hl
        by_cases hu : isUnreservedURI a
        · rw [if_pos hu] at hl
          rcases List.mem_cons.1 hl with rfl | hl2
          · exact .inl (List.mem_cons_self _ _)
          · rcases ih hl2 with h1 | h1
            · exact .inl (List.mem_cons_of_mem _ h1)
            · exact .inr h1
        · rw [if_neg hu] at hl
          rcases peByte_fold_chars _ _ _ hl with h1 | h1 | h1
          · exact .inr (.inl h1)
          · exact .inr (.inr h1)
          · rcases ih h1 with h2 | h2
            · exact .inl (List.mem_cons_of_mem _ h2)
            · exact .inr h2
  exact key s.data h

/-- The string `tok` occurs contiguously inside `s`. -/
def SubstringOf (tok s : String) : Prop :=
  ∃ pre post, s.data = pre ++ tok.data ++ post

/-- Characters that can occur in a generated access link for a given card
host: characters of the fixed prefix, base64 alphabet, padding, percent sign,
or uppercase hex digits. -/
abbrev allowedLinkChar (host : String) (c : Char) : Prop :=
  c ∈ (host ++ "apiLogin/?data=").data ∨
  c ∈ "ABCDEFGHIJKLMNOPQRSTUVWXYZabcdefghijklmnopqrstuvwxyz0123456789+/".data ∨
  c = '=' ∨ c = '%' ∨ c ∈ "0123456789ABCDEF".data

/-- C8.  With the community id set and a non-empty mobile, `getLink` returns
the url `cardHost ++ "apiLogin/?data=" ++ encodeURIComponent(base64(RSA
ciphertext of the canonical query of its field mapping))`, and the raw
authToken reaches the url only inside that ciphertext: whenever the authToken
has any character outside the link's output character set, it does not occur
in the returned url. -/
theorem c8_getlink (st : Client) (encrypt : String → List Nat) (nowSec : Nat)
    (mobile areaCode cardNo : String) (cardType n : Nat)
    (hm : mobile ≠ "") (hcn : st.communityNo = some n) (hn : n ≠ 0) :
    getLink st encrypt nowSec mobile areaCode cardNo cardType =
      .ok (st.cardHost ++ "apiLogin/?data=" ++
        percentEncode (base64Encode (encrypt (objectToQuery
          [("id", st.accountSid), ("token", st.authToken), ("communityNo", Nat.repr n),
           ("time", Nat.repr nowSec), ("mobile", mobile), ("areaCode", areaCode),
           ("cardNo", cardNo), ("cardType", Nat.repr cardType)])))) ∧
    ((∃ c ∈ st.authToken.data, ¬ allowedLinkChar st.cardHost c) →
      ¬ SubstringOf st.authToken (st.cardHost ++ "apiLogin/?data=" ++
        percentEncode (base64Encode (encrypt (objectToQuery
          [("id", st.accountSid), ("token", st.authToken), ("communityNo", Nat.repr n),
           ("time", Nat.repr nowSec), ("mobile", mobile), ("areaCode", areaCode),
           ("cardNo", cardNo), ("cardType", Nat.repr cardType)]))))) := by
  have hchk : checkCommunityNo st = .ok () := by
    simp [checkCommunityNo, jsFalsyNum, hcn, hn]
  have hcns : communityNoStr st = .ok (Nat.repr n) := by
    simp [communityNoStr, hcn]
  constructor
  · unfold getLink
    rw [if_neg hm]
    rw [hchk, hcns]
    rfl
  · rintro ⟨c, hcm, hcall⟩ ⟨pre, post, hdecomp⟩
    apply hcall
    have hcu : c ∈ ((st.cardHost ++ "apiLogin/?data=") ++
        percentEncode (base64Encode (encrypt (objectToQuery
          [("id", st.accountSid), ("token", st.authToken), ("communityNo", Nat.repr n),
           ("time", Nat.repr nowSec), ("mobile", mobile), ("areaCode", areaCode),
           ("cardNo", cardNo), ("cardType", Nat.repr cardType)])))).data := by
      have : (st.cardHost ++ "apiLogin/?data=" ++
          percentEncode (base64Encode (encrypt (objectToQuery
            [("id", st.accountSid), ("token", st.authToken), ("communityNo", Nat.repr n),
             ("time", Nat.repr nowSec), ("mobile", mobile), ("areaCode", areaCode),
             ("cardNo", cardNo), ("cardType", Nat.repr cardType)])))).data =
          pre ++ st.authToken.data ++ post := hdecomp
      rw [this]
      simp [hcm]
    have hsplit : ((st.cardHost ++ "apiLogin/?data=") ++
        percentEncode (base64Encode (encrypt (objectToQuery
          [("id", st.accountSid), ("token", st.authToken), ("communityNo", Nat.repr n),
           ("time", Nat.repr nowSec), ("mobile", mobile), ("areaCode", areaCode),
           ("cardNo", cardNo), ("cardType", Nat.repr cardType)])))).data =
        (st.cardHost ++ "apiLogin/?data=").data ++
        (percentEncode (base64Encode (encrypt (objectToQuery
          [("id", st.accountSid), ("token", st.authToken), ("communityNo", Nat.repr n),
           ("time", Nat.repr nowSec), ("mobile", mobile), ("areaCode", areaCode),
           ("cardNo", cardNo), ("cardType", Nat.repr cardType)])))).data := rfl
    rw [hsplit] at hcu
    rcases List.mem_append.1 hcu with hcu | hcu
    · exact .inl hcu
    · rcases percentEncode_chars _ _ hcu with h1 | h1 | h1
      · rcases base64Core_chars _ _ h1 with h2 | h2
        · exact .inr (.inl h2)
        · exact .inr (.inr (.inl h2))
      · exact .inr (.inr (.inr (.inl h1)))
      · exact .inr (.inr (.inr (.inr h1)))

/-- A client whose authToken contains a character that cannot occur in a
generated link, and a stand-in ciphertext function, for the C8 witness. -/
def stW : Client :=
  ⟨"A", "T!", "https://api.uclbrt.com/", "http://cz.uclbrt.com/",
   "Asia/Shanghai", "Asia/Shanghai", some 7⟩

def enc1 : String → List Nat := fun _ => [0, 1, 250]

/-- C8 witness: the theorem at a concrete client — the link has the stated
shape and the raw authToken does not occur in it. -/
theorem c8_witness :
    getLink stW enc1 1700000000 "13800000000" "021" "" 0 =
      .ok (stW.cardHost ++ "apiLogin/?data=" ++
        percentEncode (base64Encode (enc1 (objectToQuery
          [("id", stW.accountSid), ("token", stW.authToken), ("communityNo", Nat.repr 7),
           ("time", Nat.repr 1700000000), ("mobile", "13800000000"), ("areaCode", "021"),
           ("cardNo", ""), ("cardType", Nat.repr 0)])))) ∧
    ¬ SubstringOf stW.authToken (stW.cardHost ++ "apiLogin/?data=" ++
      percentEncode (base64Encode (enc1 (objectToQuery
        [("id", stW.accountSid), ("token", stW.authToken), ("communityNo", Nat.repr 7),
         ("time", Nat.repr 1700000000), ("mobile", "13800000000"), ("areaCode", "021"),
         ("cardNo", ""), ("cardType", Nat.repr 0)])))) := by
  have h := c8_getlink stW enc1 1700000000 "13800000000" "021" "" 0 7
    (by decide) rfl (by decide)
  exact ⟨h.1, h.2 ⟨'!', by decide, by decide⟩⟩
